import Mathlib

/-!
Verification development for the rover_research ground-station core:
a shallow embedding of `src/mission_control/maincontroller.cpp`
(the data-recording handshake and command-channel message construction)
and `src/video_streamer/videostreamer.cpp` (the child pipeline process).

State is modelled explicitly; side effects (messages sent on the main
channel, user notifications, D-Bus calls to the parent process, pipeline
operations) are accumulated in chronological logs inside the state, so
that "exactly once" properties become statements about those logs.
-/

namespace Soro

/-! ## Wire codec (QDataStream serialization)

`QDataStream` with default settings writes integers big-endian.
`stream << qint32` appends 4 bytes, `stream << qint64` appends 8 bytes,
`stream << QByteArray` appends a 32-bit length followed by the raw bytes.
Bytes are modelled as `Nat` values below 256. -/

/-- Big-endian byte encoding: `w` bytes of `n` (mod 2^(8w)). -/
def toBytesBE : Nat → Nat → List Nat
  | 0, _ => []
  | k + 1, n => toBytesBE k (n / 256) ++ [n % 256]

/-- Serialization of a `qint32`, as `QDataStream::operator<<(qint32)` produces. -/
def encodeQint32 (n : Int) : List Nat := toBytesBE 4 (n % (2 ^ 32)).toNat

/-- Serialization of a `qint64`, as `QDataStream::operator<<(qint64)` produces. -/
def encodeQint64 (n : Int) : List Nat := toBytesBE 8 (n % (2 ^ 64)).toNat

/-- Serialization of a `quint32` length field. -/
def encodeQuint32 (n : Nat) : List Nat := toBytesBE 4 (n % 2 ^ 32)

/-- Serialization of a `QByteArray`: 32-bit length prefix then the raw bytes. -/
def encodeQByteArray (b : List Nat) : List Nat := encodeQuint32 b.length ++ b

/-- Effect of `stream << (qint32) n` on a byte buffer. -/
def writeQint32 (buf : List Nat) (n : Int) : List Nat := buf ++ encodeQint32 n

/-- Effect of `stream << (qint64) n` on a byte buffer. -/
def writeQint64 (buf : List Nat) (n : Int) : List Nat := buf ++ encodeQint64 n

/-- Effect of `stream << byteArray` on a byte buffer. -/
def writeQByteArray (buf : List Nat) (b : List Nat) : List Nat := buf ++ encodeQByteArray b

/-! ## Shared channel message types -/

/-- The `SharedMessageType` enumeration of the command channel protocol. -/
inductive SharedMessageType
  | RoverStatusUpdate
  | RoverMediaServerError
  | RoverGpsUpdate
  | RoverDriveOverrideStart
  | RoverDriveOverrideEnd
  | SensorUpdate
  | StartDataRecording
  | StopDataRecording
  | StopAllCameraStreams
  | RequestDeactivateAudioStream
  | RequestActivateAudioStream
deriving DecidableEq, Repr

/-- Modelled from the spec: the numeric codes of the `SharedMessageType`
enumeration are declared in a shared header that is not among the provided
sources. The spec only fixes that tags form a closed enumeration encoded as a
32-bit integer; codes are therefore assigned by declaration order. No claim
below depends on the particular values, only on the position of the tag in the
encoded byte sequence. -/
def SharedMessageType.code : SharedMessageType → Int
  | .RoverStatusUpdate => 0
  | .RoverMediaServerError => 1
  | .RoverGpsUpdate => 2
  | .RoverDriveOverrideStart => 3
  | .RoverDriveOverrideEnd => 4
  | .SensorUpdate => 5
  | .StartDataRecording => 6
  | .StopDataRecording => 7
  | .StopAllCameraStreams => 8
  | .RequestDeactivateAudioStream => 9
  | .RequestActivateAudioStream => 10

/-- The messages `MainController` builds and sends on the main channel,
with their tag-specific payload data. -/
inductive Msg
  | startRecording (startTime : Int)
  | stopRecording
  | stopAllCameras
  | deactivateAudio
  | activateAudio (serializedFormat : List Nat)
deriving DecidableEq, Repr

/-- The tag under which each message is encoded. -/
def Msg.tag : Msg → SharedMessageType
  | .startRecording _ => .StartDataRecording
  | .stopRecording => .StopDataRecording
  | .stopAllCameras => .StopAllCameraStreams
  | .deactivateAudio => .RequestDeactivateAudioStream
  | .activateAudio _ => .RequestActivateAudioStream

/-- Byte-level encoding of each message, mirroring the sequence of
`QDataStream` writes in `maincontroller.cpp`:
`sendStartRecordCommandToRover` writes the tag then `_recordStartTime`
(a `qint64`); the stop/stop-all/deactivate senders write the tag alone;
`startAudioStream` writes the tag then `format.serialize()`. -/
def encodeMsg : Msg → List Nat
  | .startRecording t => writeQint64 (writeQint32 [] SharedMessageType.StartDataRecording.code) t
  | .stopRecording => writeQint32 [] SharedMessageType.StopDataRecording.code
  | .stopAllCameras => writeQint32 [] SharedMessageType.StopAllCameraStreams.code
  | .deactivateAudio => writeQint32 [] SharedMessageType.RequestDeactivateAudioStream.code
  | .activateAudio fmt => writeQByteArray (writeQint32 [] SharedMessageType.RequestActivateAudioStream.code) fmt

/-- Embedding of `MainController::startAudioStream`: only builds and sends the
activate-audio message when the format is useable; otherwise sends nothing. -/
def startAudioStream (formatUseable : Bool) (serializedFormat : List Nat) : Option Msg :=
  if formatUseable then some (Msg.activateAudio serializedFormat) else none

/-! ## MainController recording state machine -/

/-- The `RecordingState` enumeration shown in the windows. -/
inductive RecordingState
  | Idle
  | Waiting
  | Recording
deriving DecidableEq, Repr

/-- The `NotificationType` severity of a user notification. -/
inductive NotificationKind
  | Info
  | Warning
  | Err
deriving DecidableEq, Repr

/-- A user-visible structured notice raised through `_controlWindow->notify`. -/
structure Notice where
  kind : NotificationKind
  title : String
  detail : String
deriving DecidableEq, Repr

/-- The watchdog error notice raised when the rover does not acknowledge
the record request (the singleShot lambda in `startDataRecording`). -/
def cannotRecordNoResponse : Notice :=
  ⟨.Err, "Cannot Record Data",
   "The rover has not responded to the request to start data recording"⟩

/-- The error notice raised when `CsvRecorder::startLog` fails in
`onMainChannelMessageReceived`. -/
def cannotRecordStartLog : Notice :=
  ⟨.Err, "Cannot Record Data",
   "An error occurred attempting to start data logging."⟩

/-- The recording-relevant state of `MainController`:
`_recordStartTime`, the `isRecording()` flag of the recorder, the recording
state displayed by the three windows, and chronological logs of the
messages sent on `_mainChannel` and the notices raised, plus the number
of armed (not yet fired) watchdog `singleShot` timers. -/
structure MC where
  recordStartTime : Int
  recorderIsRecording : Bool
  controlRec : RecordingState
  commentsRec : RecordingState
  mainRec : RecordingState
  sent : List Msg
  notices : List Notice
  pendingWatchdogs : Nat
deriving DecidableEq, Repr

/-- The state at startup: nothing recording, all windows Idle, no
messages sent, no notices, no watchdog armed. -/
def initMC : MC :=
  { recordStartTime := 0
    recorderIsRecording := false
    controlRec := .Idle
    commentsRec := .Idle
    mainRec := .Idle
    sent := []
    notices := []
    pendingWatchdogs := 0 }

/-- Embedding of `MainController::startDataRecording`: records the current time in
`_recordStartTime`, sends the start-recording message carrying it, sets
all three windows to Waiting, and arms a 5000 ms one-shot watchdog. -/
def startDataRecording (now : Int) (s : MC) : MC :=
  { s with
    recordStartTime := now
    sent := s.sent ++ [Msg.startRecording now]
    controlRec := .Waiting
    commentsRec := .Waiting
    mainRec := .Waiting
    pendingWatchdogs := s.pendingWatchdogs + 1 }

/-- Embedding of `MainController::stopDataRecording`: stops the local recorder
(`stopLog`), sets all three windows to Idle, and sends the
stop-recording message to the rover. -/
def stopDataRecording (s : MC) : MC :=
  { s with
    recorderIsRecording := false
    controlRec := .Idle
    commentsRec := .Idle
    mainRec := .Idle
    sent := s.sent ++ [Msg.stopRecording] }

/-- Embedding of `MainController::toggleDataRecording`: dispatches on
`_dataRecorder->isRecording()` alone. -/
def toggleDataRecording (now : Int) (s : MC) : MC :=
  if s.recorderIsRecording then stopDataRecording s else startDataRecording now s

/-- Body of the watchdog lambda armed by `startDataRecording`: when the
timer fires, if the recorder is not recording, call `stopDataRecording`
and raise the no-response error notice; otherwise do nothing. -/
def recordWatchdogBody (s : MC) : MC :=
  if s.recorderIsRecording then s
  else
    let s1 := stopDataRecording s
    { s1 with notices := s1.notices ++ [cannotRecordNoResponse] }

/-- The `SharedMessage_StartDataRecording` case of
`MainController::onMainChannelMessageReceived`. `startLogOk` is whether
`_dataRecorder->startLog(...)` succeeded (on success the recorder is then
recording). On failure the code calls `stopDataRecording`, raises the
start-log error notice, and sends a further stop command
(`sendStopRecordCommandToRover`). In both cases it then falls through to
set the control and comments windows to Recording (the main window is not
updated here). -/
def onRecvStartDataRecording (startLogOk : Bool) (s : MC) : MC :=
  let s1 :=
    if startLogOk then { s with recorderIsRecording := true }
    else
      let a := stopDataRecording s
      let b := { a with notices := a.notices ++ [cannotRecordStartLog] }
      { b with sent := b.sent ++ [Msg.stopRecording] }
  { s1 with controlRec := .Recording, commentsRec := .Recording }

/-- External events driving the recording state machine: operator
button presses, receipt of the echoed start message from the rover (with the
start success of the local recorder as environment input), and the firing of
an armed watchdog timer. -/
inductive Event
  | opStart (now : Int)
  | opStop
  | opToggle (now : Int)
  | recvStartRecording (startLogOk : Bool)
  | watchdogFire
deriving DecidableEq, Repr

/-- One step of the event dispatch loop. A `watchdogFire` is only
possible while a one-shot timer is armed; firing consumes it. -/
def step (s : MC) : Event → MC
  | .opStart now => startDataRecording now s
  | .opStop => stopDataRecording s
  | .opToggle now => toggleDataRecording now s
  | .recvStartRecording ok => onRecvStartDataRecording ok s
  | .watchdogFire =>
      if 0 < s.pendingWatchdogs then
        recordWatchdogBody { s with pendingWatchdogs := s.pendingWatchdogs - 1 }
      else s

/-- Run a sequence of events. -/
def run (s : MC) (es : List Event) : MC := es.foldl step s

/-- All intermediate states along a sequence of events (the initial
state first). -/
def statesAlong (s : MC) (es : List Event) : List MC := es.scanl step s

/-- Number of adjacent Waiting→Recording transitions in a sequence of
recording states. -/
def countWaitingToRecording : List RecordingState → Nat
  | a :: b :: rest =>
      (if a = RecordingState.Waiting ∧ b = RecordingState.Recording then 1 else 0) +
        countWaitingToRecording (b :: rest)
  | _ => 0

/-- Number of stop-recording messages in a send log. -/
def countStopMsgs (l : List Msg) : Nat :=
  (l.filter fun m => m = Msg.stopRecording).length

/-! ## VideoStreamer child pipeline process -/

/-- Observable actions of the `VideoStreamer` child process, in
chronological order: D-Bus calls made on the parent interface and
operations on the GStreamer pipeline. -/
inductive VSEvent
  | callChildLogInfo (pid : Int) (tag : String) (msg : String)
  | callChildReady (pid : Int)
  | callChildStreaming (pid : Int)
  | callChildError (pid : Int) (msg : String)
  | busSignalConnected
  | busSignalDisconnected
  | pipelineCreated
  | pipelineAddBin (bin : String)
  | pipelineSetNull
  | pipelineCleared
  | pipelineSetPlaying
deriving DecidableEq, Repr

/-- State of a `VideoStreamer` instance: its process id, whether
`_pipeline` currently holds a pipeline, and the log of its observable
actions. -/
structure VS where
  pid : Int
  pipeline : Bool
  log : List VSEvent
deriving DecidableEq, Repr

/-- Modelled from the spec: `GStreamerUtil::createRtpV4L2EncodeString`
(in `core/gstreamerutil`, not among the provided sources) is an
out-of-scope collaborator, "a pure function mapping (device list,
endpoint, profile, hardware-accel flag) to an opaque pipeline
descriptor". It is modelled as a tupling of its arguments; no claim
inspects the contents of the descriptor. -/
def createRtpV4L2EncodeString (device address : String) (port : Int)
    (profile : String) (vaapi : Bool) : String :=
  device ++ "|" ++ address ++ "|" ++ toString port ++ "|" ++ profile ++ "|" ++ toString vaapi

/-- Modelled from the spec: `GStreamerUtil::createRtpStereoV4L2EncodeString`
is the stereo variant of the same out-of-scope pure descriptor builder. -/
def createRtpStereoV4L2EncodeString (leftDevice rightDevice address : String) (port : Int)
    (profile : String) (vaapi : Bool) : String :=
  leftDevice ++ "|" ++ rightDevice ++ "|" ++ address ++ "|" ++ toString port ++ "|" ++
    profile ++ "|" ++ toString vaapi

/-- Embedding of `VideoStreamer::stopPrivate(sendReady)`: if a pipeline is held, log
"Freeing pipeline" to the parent, disconnect the bus signal, set the
pipeline to the null state, release it, and (when `sendReady`) call
`onChildReady`; if no pipeline is held, do nothing. -/
def stopPrivate (sendReady : Bool) (s : VS) : VS :=
  if s.pipeline then
    let l1 := s.log ++
      [VSEvent.callChildLogInfo s.pid "VideoStreamer" "Freeing pipeline",
       VSEvent.busSignalDisconnected,
       VSEvent.pipelineSetNull,
       VSEvent.pipelineCleared]
    let l2 := if sendReady then l1 ++ [VSEvent.callChildReady s.pid] else l1
    { s with pipeline := false, log := l2 }
  else s

/-- Embedding of `VideoStreamer::stop()`: the public D-Bus slot, delegates to
`stopPrivate(true)`. -/
def stop (s : VS) : VS := stopPrivate true s

/-- Embedding of `VideoStreamer::createPipeline`: creates a fresh pipeline and
connects its bus message signal. -/
def createPipeline (s : VS) : VS :=
  { s with
    pipeline := true
    log := s.log ++ [VSEvent.pipelineCreated, VSEvent.busSignalConnected] }

/-- Embedding of `VideoStreamer::stream`: tears down any previous pipeline without a
ready report, creates a fresh pipeline, logs the GStreamer command, adds
the encode bin, sets the pipeline to playing, and immediately calls
`onChildStreaming` on the parent. -/
def stream (device address : String) (port : Int) (profile : String) (vaapi : Bool)
    (s : VS) : VS :=
  let s1 := stopPrivate false s
  let s2 := createPipeline s1
  let binStr := createRtpV4L2EncodeString device address port profile vaapi
  let s3 := { s2 with log := s2.log ++
    [VSEvent.callChildLogInfo s2.pid "VideoStreamer" ("Starting GStreamer with command " ++ binStr)] }
  let s4 := { s3 with log := s3.log ++ [VSEvent.pipelineAddBin binStr, VSEvent.pipelineSetPlaying] }
  { s4 with log := s4.log ++ [VSEvent.callChildStreaming s4.pid] }

/-- Embedding of `VideoStreamer::streamStereo`: identical to `stream` but with the
stereo descriptor builder. -/
def streamStereo (leftDevice rightDevice address : String) (port : Int) (profile : String)
    (vaapi : Bool) (s : VS) : VS :=
  let s1 := stopPrivate false s
  let s2 := createPipeline s1
  let binStr := createRtpStereoV4L2EncodeString leftDevice rightDevice address port profile vaapi
  let s3 := { s2 with log := s2.log ++
    [VSEvent.callChildLogInfo s2.pid "VideoStreamer" ("Starting GStreamer with command " ++ binStr)] }
  let s4 := { s3 with log := s3.log ++ [VSEvent.pipelineAddBin binStr, VSEvent.pipelineSetPlaying] }
  { s4 with log := s4.log ++ [VSEvent.callChildStreaming s4.pid] }

/-- The kinds of GStreamer bus messages `VideoStreamer::onBusMessage`
distinguishes. -/
inductive GstMessage
  | eos
  | err (msg : String)
  | other
deriving DecidableEq, Repr

/-- Embedding of `VideoStreamer::onBusMessage`: on end-of-stream, report the fixed
EOS error message to the parent and call `stopPrivate(true)`; on an
error message, report its detail string and call `stopPrivate(true)`;
ignore every other message type. -/
def onBusMessage (m : GstMessage) (s : VS) : VS :=
  match m with
  | .eos =>
      stopPrivate true
        { s with log := s.log ++ [VSEvent.callChildError s.pid "Received EOS message from GStreamer"] }
  | .err msg =>
      stopPrivate true
        { s with log := s.log ++ [VSEvent.callChildError s.pid msg] }
  | .other => s

/-- Number of `onChildError` calls in a log. -/
def countErrorCalls (l : List VSEvent) : Nat :=
  (l.filter fun e => match e with | VSEvent.callChildError _ _ => true | _ => false).length

/-- Number of `onChildStreaming` calls in a log. -/
def countStreamingCalls (l : List VSEvent) : Nat :=
  (l.filter fun e => match e with | VSEvent.callChildStreaming _ => true | _ => false).length

/-- Number of pipeline teardowns (pipeline set to the null state) in a log. -/
def countTeardowns (l : List VSEvent) : Nat :=
  (l.filter fun e => match e with | VSEvent.pipelineSetNull => true | _ => false).length

/-! ## Distinguished event traces used in the claims -/

/-- Operator requests recording at time `t` and the echoed start
message from the rover arrives (and the local recorder starts) before the watchdog
fires; the one-shot watchdog still fires afterwards. -/
def ackTrace (t : Int) : List Event :=
  [Event.opToggle t, Event.recvStartRecording true, Event.watchdogFire]

/-- Operator requests recording at time `t` and no acknowledgment
arrives before the watchdog fires. -/
def timeoutTrace (t : Int) : List Event :=
  [Event.opToggle t, Event.watchdogFire]

/-- Operator requests recording, the rover acknowledges in time, and the
operator then legitimately stops recording before the 5000 ms deadline;
the armed watchdog has not yet fired. -/
def stopBeforeDeadlineTrace : List Event :=
  [Event.opToggle 0, Event.recvStartRecording true, Event.opStop]

/-- Operator requests recording, the rover acknowledges, but the local
local `startLog` call fails. -/
def startLogFailTrace : List Event :=
  [Event.opToggle 0, Event.recvStartRecording false]

/-! ## Helper lemmas -/

theorem toBytesBE_length (w : Nat) : ∀ n : Nat, (toBytesBE w n).length = w := by
  induction w with
  | zero => intro n; rfl
  | succ k ih => intro n; simp [toBytesBE, ih]

theorem encodeQint32_length (n : Int) : (encodeQint32 n).length = 4 := by
  simp [encodeQint32, toBytesBE_length]

theorem countStopMsgs_append (a b : List Msg) :
    countStopMsgs (a ++ b) = countStopMsgs a + countStopMsgs b := by
  simp [countStopMsgs, List.filter_append]

theorem countErrorCalls_append (a b : List VSEvent) :
    countErrorCalls (a ++ b) = countErrorCalls a + countErrorCalls b := by
  simp [countErrorCalls, List.filter_append]

theorem countStreamingCalls_append (a b : List VSEvent) :
    countStreamingCalls (a ++ b) = countStreamingCalls a + countStreamingCalls b := by
  simp [countStreamingCalls, List.filter_append]

theorem countTeardowns_append (a b : List VSEvent) :
    countTeardowns (a ++ b) = countTeardowns a + countTeardowns b := by
  simp [countTeardowns, List.filter_append]

/-! ## Claim theorems -/

/-- C1: if the operator requests start-recording and the echoed
start-recording message from the rover is received before the 5000 ms watchdog fires
(and the local recorder starts successfully), the recording session
transitions Waiting→Recording exactly once, and no stop message or error
notification is produced — not even when the still-armed one-shot
watchdog later fires, since the recorder is then recording. -/
theorem start_ack_within_watchdog_records_once (t : Int) :
    (statesAlong initMC (ackTrace t)).map MC.controlRec =
      [RecordingState.Idle, RecordingState.Waiting, RecordingState.Recording,
       RecordingState.Recording] ∧
    (statesAlong initMC (ackTrace t)).map MC.commentsRec =
      [RecordingState.Idle, RecordingState.Waiting, RecordingState.Recording,
       RecordingState.Recording] ∧
    countWaitingToRecording ((statesAlong initMC (ackTrace t)).map MC.controlRec) = 1 ∧
    (run initMC (ackTrace t)).recorderIsRecording = true ∧
    (run initMC (ackTrace t)).sent = [Msg.startRecording t] ∧
    countStopMsgs (run initMC (ackTrace t)).sent = 0 ∧
    (run initMC (ackTrace t)).notices = [] := by
  refine ⟨rfl, rfl, rfl, rfl, rfl, ?_, rfl⟩
  simp [run, ackTrace, statesAlong, step, toggleDataRecording, initMC, startDataRecording,
    onRecvStartDataRecording, recordWatchdogBody, countStopMsgs]

/-- C2: if the operator requests start-recording and no acknowledgment
arrives before the watchdog fires, the session is forced to Idle,
exactly one stop-recording message is sent to the rover, and exactly one
error notification is raised. -/
theorem timeout_without_ack_forces_idle (t : Int) :
    (statesAlong initMC (timeoutTrace t)).map MC.controlRec =
      [RecordingState.Idle, RecordingState.Waiting, RecordingState.Idle] ∧
    (statesAlong initMC (timeoutTrace t)).map MC.commentsRec =
      [RecordingState.Idle, RecordingState.Waiting, RecordingState.Idle] ∧
    (statesAlong initMC (timeoutTrace t)).map MC.mainRec =
      [RecordingState.Idle, RecordingState.Waiting, RecordingState.Idle] ∧
    (run initMC (timeoutTrace t)).recorderIsRecording = false ∧
    (run initMC (timeoutTrace t)).sent = [Msg.startRecording t, Msg.stopRecording] ∧
    countStopMsgs (run initMC (timeoutTrace t)).sent = 1 ∧
    (run initMC (timeoutTrace t)).notices = [cannotRecordNoResponse] := by
  refine ⟨rfl, rfl, rfl, rfl, rfl, ?_, rfl⟩
  simp [run, timeoutTrace, step, toggleDataRecording, initMC, startDataRecording,
    recordWatchdogBody, stopDataRecording, countStopMsgs]

/-- C3 counterexample: the watchdog armed by `startDataRecording` is not
cancelled when the acknowledgment arrives. After a successful
Waiting→Recording transition followed by a legitimate operator stop
before the 5000 ms deadline, the still-armed watchdog fires, and its
firing produces a further (spurious) stop message and an error
notification claiming the rover did not respond. -/
theorem stale_watchdog_fires_after_legitimate_stop :
    (run initMC stopBeforeDeadlineTrace).sent =
      [Msg.startRecording 0, Msg.stopRecording] ∧
    (run initMC stopBeforeDeadlineTrace).notices = [] ∧
    0 < (run initMC stopBeforeDeadlineTrace).pendingWatchdogs ∧
    (step (run initMC stopBeforeDeadlineTrace) Event.watchdogFire).sent =
      [Msg.startRecording 0, Msg.stopRecording, Msg.stopRecording] ∧
    (step (run initMC stopBeforeDeadlineTrace) Event.watchdogFire).notices =
      [cannotRecordNoResponse] := by
  refine ⟨rfl, rfl, ?_, rfl, rfl⟩
  decide

/-- C3 amended: the watchdog is a one-shot timer that is never
cancelled; it always fires at the deadline, but its callback is guarded
by the recording flag of the recorder. If the recorder is still recording at
the deadline the firing changes nothing but the armed-timer count (no
state transition, stop message, or error notification); if the recorder
is not recording at the deadline — in particular after a legitimate
operator stop before the deadline — the stale watchdog forces Idle,
sends a stop message, and raises the no-response error notification. -/
theorem watchdog_fire_guarded_by_recorder (s : MC) (h : 0 < s.pendingWatchdogs) :
    (s.recorderIsRecording = true →
      step s Event.watchdogFire = { s with pendingWatchdogs := s.pendingWatchdogs - 1 }) ∧
    (s.recorderIsRecording = false →
      step s Event.watchdogFire =
        { s with
          pendingWatchdogs := s.pendingWatchdogs - 1
          recorderIsRecording := false
          controlRec := RecordingState.Idle
          commentsRec := RecordingState.Idle
          mainRec := RecordingState.Idle
          sent := s.sent ++ [Msg.stopRecording]
          notices := s.notices ++ [cannotRecordNoResponse] }) := by
  constructor
  · intro hr
    simp [step, h, recordWatchdogBody, hr]
  · intro hr
    simp [step, h, recordWatchdogBody, hr, stopDataRecording]

/-- C3 amended, witness: concrete instance after a start request whose
acknowledgment arrived — the fire only consumes the armed timer. -/
theorem watchdog_fire_guarded_by_recorder_witness :
    0 < (run initMC [Event.opToggle 0, Event.recvStartRecording true]).pendingWatchdogs ∧
    ((run initMC [Event.opToggle 0, Event.recvStartRecording true]).recorderIsRecording = true →
      step (run initMC [Event.opToggle 0, Event.recvStartRecording true]) Event.watchdogFire =
        { run initMC [Event.opToggle 0, Event.recvStartRecording true] with
            pendingWatchdogs :=
              (run initMC [Event.opToggle 0, Event.recvStartRecording true]).pendingWatchdogs - 1 }) :=
  ⟨by decide,
   (watchdog_fire_guarded_by_recorder
      (run initMC [Event.opToggle 0, Event.recvStartRecording true]) (by decide)).1⟩

/-- C4: behavior of the code at the failing input. When the echoed
start-recording message is received while `startLog` fails, the handler
calls `stopDataRecording` (Idle everywhere, first stop message), raises
the error notice, sends a second stop command — and then falls through
to set the control and comments windows to Recording anyway. The
session therefore does not end in Idle on those windows, and two stop
messages are sent rather than one. -/
theorem recv_start_with_startlog_failure_behavior :
    (run initMC startLogFailTrace).controlRec = RecordingState.Recording ∧
    (run initMC startLogFailTrace).commentsRec = RecordingState.Recording ∧
    (run initMC startLogFailTrace).mainRec = RecordingState.Idle ∧
    (run initMC startLogFailTrace).recorderIsRecording = false ∧
    (run initMC startLogFailTrace).sent =
      [Msg.startRecording 0, Msg.stopRecording, Msg.stopRecording] ∧
    countStopMsgs (run initMC startLogFailTrace).sent = 2 ∧
    (run initMC startLogFailTrace).notices = [cannotRecordStartLog] := by
  decide

/-- C5: every request to stop recording unconditionally and immediately
forces the session to Idle (recorder stopped, all three windows Idle),
sends exactly one stop-recording message, raises no notification, and
awaits no acknowledgment (no watchdog is armed), regardless of the prior
state. -/
theorem stop_recording_unconditional (s : MC) :
    (stopDataRecording s).controlRec = RecordingState.Idle ∧
    (stopDataRecording s).commentsRec = RecordingState.Idle ∧
    (stopDataRecording s).mainRec = RecordingState.Idle ∧
    (stopDataRecording s).recorderIsRecording = false ∧
    (stopDataRecording s).sent = s.sent ++ [Msg.stopRecording] ∧
    countStopMsgs (stopDataRecording s).sent = countStopMsgs s.sent + 1 ∧
    (stopDataRecording s).notices = s.notices ∧
    (stopDataRecording s).pendingWatchdogs = s.pendingWatchdogs := by
  refine ⟨rfl, rfl, rfl, rfl, rfl, ?_, rfl, rfl⟩
  simp [stopDataRecording, countStopMsgs_append, countStopMsgs]

/-- C10: the record toggle dispatches solely on the recording flag of
the recorder. While the session is Waiting (start requested, acknowledgment not
yet received) the recorder is not yet recording, so a second toggle
issues a second start request: it overwrites the recorded start
timestamp, sends another start-recording message (and no stop message),
and arms another watchdog, rather than cancelling the pending one. -/
theorem toggle_in_waiting_issues_second_start (s : MC) (t : Int)
    (h : s.recorderIsRecording = false) :
    toggleDataRecording t s = startDataRecording t s ∧
    (toggleDataRecording t s).recordStartTime = t ∧
    (toggleDataRecording t s).sent = s.sent ++ [Msg.startRecording t] ∧
    (toggleDataRecording t s).pendingWatchdogs = s.pendingWatchdogs + 1 ∧
    countStopMsgs (toggleDataRecording t s).sent = countStopMsgs s.sent := by
  refine ⟨by simp [toggleDataRecording, h], ?_, ?_, ?_, ?_⟩ <;>
    simp [toggleDataRecording, h, startDataRecording, countStopMsgs_append, countStopMsgs]

/-- C10 witness: concretely, toggling at time 2 while Waiting on the
request made at time 1 re-sends a start message and arms a second
watchdog. -/
theorem toggle_in_waiting_issues_second_start_witness :
    (run initMC [Event.opToggle 1]).recorderIsRecording = false ∧
    (toggleDataRecording 2 (run initMC [Event.opToggle 1]) =
      startDataRecording 2 (run initMC [Event.opToggle 1]) ∧
    (toggleDataRecording 2 (run initMC [Event.opToggle 1])).recordStartTime = 2 ∧
    (toggleDataRecording 2 (run initMC [Event.opToggle 1])).sent =
      (run initMC [Event.opToggle 1]).sent ++ [Msg.startRecording 2] ∧
    (toggleDataRecording 2 (run initMC [Event.opToggle 1])).pendingWatchdogs =
      (run initMC [Event.opToggle 1]).pendingWatchdogs + 1 ∧
    countStopMsgs (toggleDataRecording 2 (run initMC [Event.opToggle 1])).sent =
      countStopMsgs (run initMC [Event.opToggle 1]).sent) :=
  ⟨by decide, toggle_in_waiting_issues_second_start (run initMC [Event.opToggle 1]) 2 (by decide)⟩

/-- C8: every message encoded for the command channel begins with the
32-bit (4-byte) message tag, which precedes all tag-specific payload
fields in the byte sequence. In particular the start-recording message
is the tag followed by the `qint64` start timestamp, and the
activate-audio message (the one `startAudioStream` sends for a useable
format) is the tag followed by the length-prefixed serialized format. -/
theorem encoded_messages_begin_with_tag (t : Int) (fmt : List Nat) :
    (∀ m : Msg, ∃ payload, encodeMsg m = encodeQint32 m.tag.code ++ payload) ∧
    (∀ m : Msg, (encodeMsg m).take 4 = encodeQint32 m.tag.code) ∧
    (∀ n : Int, (encodeQint32 n).length = 4) ∧
    encodeMsg (Msg.startRecording t) =
      encodeQint32 SharedMessageType.StartDataRecording.code ++ encodeQint64 t ∧
    startAudioStream true fmt = some (Msg.activateAudio fmt) ∧
    encodeMsg (Msg.activateAudio fmt) =
      encodeQint32 SharedMessageType.RequestActivateAudioStream.code ++ encodeQByteArray fmt := by
  have hsplit : ∀ m : Msg, ∃ payload, encodeMsg m = encodeQint32 m.tag.code ++ payload := by
    intro m
    cases m with
    | startRecording t' =>
        exact ⟨encodeQint64 t', by simp [encodeMsg, Msg.tag, writeQint32, writeQint64]⟩
    | stopRecording => exact ⟨[], by simp [encodeMsg, Msg.tag, writeQint32]⟩
    | stopAllCameras => exact ⟨[], by simp [encodeMsg, Msg.tag, writeQint32]⟩
    | deactivateAudio => exact ⟨[], by simp [encodeMsg, Msg.tag, writeQint32]⟩
    | activateAudio fmt' =>
        exact ⟨encodeQByteArray fmt', by simp [encodeMsg, Msg.tag, writeQint32, writeQByteArray]⟩
  refine ⟨hsplit, ?_, encodeQint32_length, ?_, ?_, ?_⟩
  · intro m
    obtain ⟨payload, hp⟩ := hsplit m
    rw [hp, List.take_left' (encodeQint32_length _)]
  · simp [encodeMsg, writeQint32, writeQint64]
  · rfl
  · simp [encodeMsg, writeQint32, writeQByteArray]

/-- C6: when the child pipeline process observes a GStreamer error or
end-of-stream while a pipeline is live, it reports exactly one
structured error — its process identifier plus the detail message of
the error (the fixed EOS string for end-of-stream) — to the parent, and
tears the pipeline down exactly once: the pipeline is set to the null
state and released, after which no pipeline is held. -/
theorem bus_error_reports_once_and_tears_down_once (s : VS) (e : String)
    (h : s.pipeline = true) :
    (onBusMessage (GstMessage.err e) s).log =
      s.log ++
        [VSEvent.callChildError s.pid e,
         VSEvent.callChildLogInfo s.pid "VideoStreamer" "Freeing pipeline",
         VSEvent.busSignalDisconnected,
         VSEvent.pipelineSetNull,
         VSEvent.pipelineCleared,
         VSEvent.callChildReady s.pid] ∧
    (onBusMessage (GstMessage.err e) s).pipeline = false ∧
    countErrorCalls (onBusMessage (GstMessage.err e) s).log = countErrorCalls s.log + 1 ∧
    countTeardowns (onBusMessage (GstMessage.err e) s).log = countTeardowns s.log + 1 ∧
    (onBusMessage GstMessage.eos s).log =
      s.log ++
        [VSEvent.callChildError s.pid "Received EOS message from GStreamer",
         VSEvent.callChildLogInfo s.pid "VideoStreamer" "Freeing pipeline",
         VSEvent.busSignalDisconnected,
         VSEvent.pipelineSetNull,
         VSEvent.pipelineCleared,
         VSEvent.callChildReady s.pid] ∧
    (onBusMessage GstMessage.eos s).pipeline = false ∧
    countErrorCalls (onBusMessage GstMessage.eos s).log = countErrorCalls s.log + 1 ∧
    countTeardowns (onBusMessage GstMessage.eos s).log = countTeardowns s.log + 1 := by
  refine ⟨?_, ?_, ?_, ?_, ?_, ?_, ?_, ?_⟩ <;>
    simp [onBusMessage, stopPrivate, h, countErrorCalls_append, countTeardowns_append,
      countErrorCalls, countTeardowns]

/-- C6 witness: a live pipeline receiving the error "device
disconnected" reports it once and frees the pipeline once. -/
theorem bus_error_reports_once_and_tears_down_once_witness :
    (VS.mk 7 true []).pipeline = true ∧
    (onBusMessage (GstMessage.err "device disconnected") (VS.mk 7 true [])).log =
      [] ++
        [VSEvent.callChildError 7 "device disconnected",
         VSEvent.callChildLogInfo 7 "VideoStreamer" "Freeing pipeline",
         VSEvent.busSignalDisconnected,
         VSEvent.pipelineSetNull,
         VSEvent.pipelineCleared,
         VSEvent.callChildReady 7] :=
  ⟨rfl,
   (bus_error_reports_once_and_tears_down_once (VS.mk 7 true []) "device disconnected" rfl).1⟩

/-- C7: `stop` on the child pipeline process is idempotent and always
safe: running it twice reaches the same state as running it once; when
no pipeline is active it is a complete no-op (no pipeline operation and
no message to the parent, the state is unchanged); and when a pipeline
is active, two consecutive calls produce exactly one teardown. -/
theorem stop_idempotent_and_noop_when_inactive (s : VS) :
    stop (stop s) = stop s ∧
    (s.pipeline = false → stop s = s) ∧
    (s.pipeline = true →
      countTeardowns (stop s).log = countTeardowns s.log + 1 ∧
      countTeardowns (stop (stop s)).log = countTeardowns s.log + 1 ∧
      (stop s).pipeline = false) := by
  cases hp : s.pipeline <;>
    simp [stop, stopPrivate, hp, countTeardowns_append, countTeardowns]

/-- C7 witness: concretely, stopping a live pipeline twice tears it down
exactly once. -/
theorem stop_idempotent_and_noop_when_inactive_witness :
    (VS.mk 7 true []).pipeline = true ∧
    stop (stop (VS.mk 7 true [])) = stop (VS.mk 7 true []) ∧
    countTeardowns (stop (stop (VS.mk 7 true []))).log =
      countTeardowns (VS.mk 7 true []).log + 1 :=
  ⟨rfl, (stop_idempotent_and_noop_when_inactive (VS.mk 7 true [])).1,
   ((stop_idempotent_and_noop_when_inactive (VS.mk 7 true [])).2.2 rfl).2.1⟩

theorem stream_log_split (device address profile : String) (port : Int) (vaapi : Bool)
    (s : VS) :
    ∃ pre, (stream device address port profile vaapi s).log =
      s.log ++ pre ++ [VSEvent.pipelineSetPlaying, VSEvent.callChildStreaming s.pid] ∧
      countStreamingCalls pre = 0 ∧ countErrorCalls pre = 0 := by
  cases hp : s.pipeline
  · exact ⟨[VSEvent.pipelineCreated, VSEvent.busSignalConnected,
      VSEvent.callChildLogInfo s.pid "VideoStreamer"
        ("Starting GStreamer with command " ++
          createRtpV4L2EncodeString device address port profile vaapi),
      VSEvent.pipelineAddBin (createRtpV4L2EncodeString device address port profile vaapi)],
      by simp [stream, stopPrivate, hp, createPipeline], rfl, rfl⟩
  · exact ⟨[VSEvent.callChildLogInfo s.pid "VideoStreamer" "Freeing pipeline",
      VSEvent.busSignalDisconnected, VSEvent.pipelineSetNull, VSEvent.pipelineCleared,
      VSEvent.pipelineCreated, VSEvent.busSignalConnected,
      VSEvent.callChildLogInfo s.pid "VideoStreamer"
        ("Starting GStreamer with command " ++
          createRtpV4L2EncodeString device address port profile vaapi),
      VSEvent.pipelineAddBin (createRtpV4L2EncodeString device address port profile vaapi)],
      by simp [stream, stopPrivate, hp, createPipeline], rfl, rfl⟩

theorem streamStereo_log_split (leftDevice rightDevice address profile : String) (port : Int)
    (vaapi : Bool) (s : VS) :
    ∃ pre, (streamStereo leftDevice rightDevice address port profile vaapi s).log =
      s.log ++ pre ++ [VSEvent.pipelineSetPlaying, VSEvent.callChildStreaming s.pid] ∧
      countStreamingCalls pre = 0 ∧ countErrorCalls pre = 0 := by
  cases hp : s.pipeline
  · exact ⟨[VSEvent.pipelineCreated, VSEvent.busSignalConnected,
      VSEvent.callChildLogInfo s.pid "VideoStreamer"
        ("Starting GStreamer with command " ++
          createRtpStereoV4L2EncodeString leftDevice rightDevice address port profile vaapi),
      VSEvent.pipelineAddBin
        (createRtpStereoV4L2EncodeString leftDevice rightDevice address port profile vaapi)],
      by simp [streamStereo, stopPrivate, hp, createPipeline], rfl, rfl⟩
  · exact ⟨[VSEvent.callChildLogInfo s.pid "VideoStreamer" "Freeing pipeline",
      VSEvent.busSignalDisconnected, VSEvent.pipelineSetNull, VSEvent.pipelineCleared,
      VSEvent.pipelineCreated, VSEvent.busSignalConnected,
      VSEvent.callChildLogInfo s.pid "VideoStreamer"
        ("Starting GStreamer with command " ++
          createRtpStereoV4L2EncodeString leftDevice rightDevice address port profile vaapi),
      VSEvent.pipelineAddBin
        (createRtpStereoV4L2EncodeString leftDevice rightDevice address port profile vaapi)],
      by simp [streamStereo, stopPrivate, hp, createPipeline], rfl, rfl⟩

/-- C9: every call to `stream` or `streamStereo` makes exactly one
`onChildStreaming` report to the parent within the same call,
unconditionally: the report is the last action of the call, placed
immediately after the pipeline is set to playing, with no error report
in the call itself. A pipeline failure is only reported later, as a
separate asynchronous `onChildError` from the bus-message handler. -/
theorem stream_reports_streaming_once (device leftDevice rightDevice address profile : String)
    (port : Int) (vaapi : Bool) (s : VS) (e : String) :
    (∃ pre, (stream device address port profile vaapi s).log =
        s.log ++ pre ++ [VSEvent.pipelineSetPlaying, VSEvent.callChildStreaming s.pid] ∧
        countStreamingCalls pre = 0 ∧ countErrorCalls pre = 0) ∧
    countStreamingCalls (stream device address port profile vaapi s).log =
      countStreamingCalls s.log + 1 ∧
    countErrorCalls (stream device address port profile vaapi s).log =
      countErrorCalls s.log ∧
    (∃ pre, (streamStereo leftDevice rightDevice address port profile vaapi s).log =
        s.log ++ pre ++ [VSEvent.pipelineSetPlaying, VSEvent.callChildStreaming s.pid] ∧
        countStreamingCalls pre = 0 ∧ countErrorCalls pre = 0) ∧
    countStreamingCalls (streamStereo leftDevice rightDevice address port profile vaapi s).log =
      countStreamingCalls s.log + 1 ∧
    countErrorCalls (streamStereo leftDevice rightDevice address port profile vaapi s).log =
      countErrorCalls s.log ∧
    countErrorCalls (onBusMessage (GstMessage.err e)
        (stream device address port profile vaapi s)).log =
      countErrorCalls s.log + 1 := by
  refine ⟨stream_log_split device address profile port vaapi s, ?_, ?_,
    streamStereo_log_split leftDevice rightDevice address profile port vaapi s, ?_, ?_, ?_⟩ <;>
    cases hp : s.pipeline <;>
      simp [stream, streamStereo, stopPrivate, createPipeline, onBusMessage, hp,
        countStreamingCalls_append, countErrorCalls_append,
        countStreamingCalls, countErrorCalls]

end Soro
